import Mathlib

/-!
Shallow embedding of mpv's volume-control audio filter
(`src/audio/filter/af_volume.c`) and proofs about it.

Floating-point values in the C source are modelled as exact real numbers;
`int16_t` samples and the intermediate `int` arithmetic are modelled as
unbounded integers `ℤ` (the claims under study do not exercise 32-bit
overflow).  External host collaborators (`af_make_writeable`,
`af_test_output`, `af_add_output_frame`, the softclip curve from `af.c`)
are modelled as parameters or abstract outcomes, as the spec declares them
out of scope.
-/

namespace AfVolume

/-- C macro `MPCLAMP(a, min, max)` from `common/common.h`:
`((a) > (max)) ? (max) : (((a) < (min)) ? (min) : (a))`, on reals. -/
noncomputable def mpclamp (a mi ma : ℝ) : ℝ :=
  if ma < a then ma else if a < mi then mi else a

/-- `MPCLAMP` on integers (used with `SHRT_MIN`/`SHRT_MAX`). -/
def mpclampZ (a mi ma : ℤ) : ℤ :=
  if ma < a then ma else if a < mi then mi else a

/-- `MPMIN` is just `min`.  `from_dB` from `af_volume.c`:
convert dB to a gain value; input `<= -200` dB becomes gain 0,
otherwise `pow(10.0, MPCLAMP(in, mi, ma) / k)`. -/
noncomputable def from_dB (input k mi ma : ℝ) : ℝ :=
  if input ≤ -200 then 0 else (10 : ℝ) ^ (mpclamp input mi ma / k)

/-- The private filter state `struct priv` of `af_volume.c`. -/
structure Priv where
  vol : ℝ                  -- user-specified non-linear volume
  level : ℝ                -- user-specified gain level for each channel
  rgain : ℝ                -- replaygain level
  rgain_track : Bool       -- enable/disable track based replaygain
  rgain_album : Bool       -- enable/disable album based replaygain
  rgain_preamp : ℝ         -- replaygain pre-amplification
  rgain_clip : Bool        -- enable/disable clipping prevention
  replaygain_fallback : ℝ
  soft : Bool              -- enable/disable soft clipping
  fast : Bool              -- use fix-point volume control
  detach : Bool            -- detach if gain volume is neutral
  cfg_volume : ℝ

/-- Replaygain metadata attached to the stream (`struct replaygain_data`). -/
structure ReplayGainData where
  track_gain : ℝ
  track_peak : ℝ
  album_gain : ℝ
  album_peak : ℝ

/-- Per-sample numeric representation of an audio format. -/
inductive SampleFmt where
  | s16
  | flt
  | other
  deriving DecidableEq

/-- An audio sample format: a base representation plus a planar flag. -/
structure AFFormat where
  base : SampleFmt
  planar : Bool
  deriving DecidableEq

/-- The interleaved 16-bit signed integer format `AF_FORMAT_S16`. -/
def AF_FORMAT_S16 : AFFormat := ⟨.s16, false⟩

/-- The interleaved 32-bit float format `AF_FORMAT_FLOAT`. -/
def AF_FORMAT_FLOAT : AFFormat := ⟨.flt, false⟩

/-- `af_fmt_from_planar`: map a planar format to its interleaved
counterpart (identity on interleaved formats). -/
def af_fmt_from_planar (f : AFFormat) : AFFormat := { f with planar := false }

/-- `af_fmt_to_planar`: map a format to its planar counterpart. -/
def af_fmt_to_planar (f : AFFormat) : AFFormat := { f with planar := true }

/-- `af_fmt_is_planar`. -/
def af_fmt_is_planar (f : AFFormat) : Bool := f.planar

/-- Outcome of a `control` call with `AF_CONTROL_REINIT`:
either `AF_DETACH`, or whatever `af_test_output(af, in)` returns
(an external collaborator, abstracted as `ok`). -/
inductive ReinitResult where
  | detach
  | ok
  deriving DecidableEq

/-- The format-negotiation part of `AF_CONTROL_REINIT`:
`mp_audio_copy_config` + `mp_audio_force_interleaved_format`, then
`AF_FORMAT_S16` if `s->fast` and the de-planarized input is not float,
else `AF_FORMAT_FLOAT`; finally re-planarized if the input was planar. -/
def reinit_format (s : Priv) (inFmt : AFFormat) : AFFormat :=
  let fmt0 := if s.fast ∧ af_fmt_from_planar inFmt ≠ AF_FORMAT_FLOAT
              then AF_FORMAT_S16 else AF_FORMAT_FLOAT
  if af_fmt_is_planar inFmt then af_fmt_to_planar fmt0 else fmt0

/-- The replaygain-resolution part of `AF_CONTROL_REINIT`:
`s->rgain = 1.0;` then, if a track/album mode is enabled and
`af->replaygain_data` is non-NULL, select the (gain, peak) pair
(track first), add the preamp, convert from dB, and apply
`MPMIN(s->rgain, 1.0 / peak)` when `!s->rgain_clip`;
otherwise fall back to `replaygain_fallback` when it is non-zero
(C truthiness of the float). -/
noncomputable def reinit_rgain (s : Priv) (rg : Option ReplayGainData) : ℝ :=
  match rg with
  | some d =>
    if s.rgain_track ∨ s.rgain_album then
      let gain := (if s.rgain_track then d.track_gain else d.album_gain)
                    + s.rgain_preamp
      let peak := if s.rgain_track then d.track_peak else d.album_peak
      let r := from_dB gain 20 (-200) 60
      if ¬ s.rgain_clip then min r (1 / peak) else r
    else if s.replaygain_fallback ≠ 0
      then from_dB s.replaygain_fallback 20 (-200) 60
      else 1
  | none =>
    if s.replaygain_fallback ≠ 0
      then from_dB s.replaygain_fallback 20 (-200) 60
      else 1

/-- `control` with `AF_CONTROL_REINIT`: negotiate the format, resolve the
replaygain, and detach when `s->detach` is set and
`fabs(s->level * s->rgain - 1.0) < 0.00001`; returns the updated state,
the negotiated format of `af->data` and the result code. -/
noncomputable def control_reinit (s : Priv) (rg : Option ReplayGainData)
    (inFmt : AFFormat) : Priv × AFFormat × ReinitResult :=
  let s' := { s with rgain := reinit_rgain s rg }
  let res := if s'.detach ∧ |s'.level * s'.rgain - 1| < 1 / 100000
             then ReinitResult.detach else ReinitResult.ok
  (s', reinit_format s inFmt, res)

/-- `control` with `AF_CONTROL_SET_VOLUME`:
`s->vol = *arg; s->level = pow(s->vol, 3);`. -/
noncomputable def control_set_volume (s : Priv) (v : ℝ) : Priv :=
  { s with vol := v, level := v ^ 3 }

/-- `control` with `AF_CONTROL_GET_VOLUME`: `*arg = s->vol;`. -/
noncomputable def control_get_volume (s : Priv) : ℝ := s.vol

/-- C conversion of a real value to `int`: truncation toward zero. -/
noncomputable def truncZero (x : ℝ) : ℤ := if 0 ≤ x then ⌊x⌋ else ⌈x⌉

/-- The effective gain computed at the top of `filter_plane`:
`s->level * s->rgain * from_dB(s->cfg_volume, 20.0, -200.0, 60.0)`. -/
noncomputable def effective_level (s : Priv) : ℝ :=
  s.level * s.rgain * from_dB s.cfg_volume 20 (-200) 60

/-- The integer gain of the fixed-point path: `int vol = 256.0 * level;`. -/
noncomputable def s16_vol (level : ℝ) : ℤ := truncZero (256 * level)

/-- One sample of the fixed-point path:
`int x = (a[i] * vol) >> 8; a[i] = MPCLAMP(x, SHRT_MIN, SHRT_MAX);`
(`>>` on a signed `int` is the arithmetic, sign-preserving shift). -/
def scale_s16_sample (vol x : ℤ) : ℤ :=
  mpclampZ ((x * vol) >>> (8 : ℕ)) (-32768) 32767

/-- `filter_plane` on the 16-bit fixed-point branch.  `writable`
models whether `af_make_writeable(af, data)` succeeds; on failure the
function returns with the plane untouched (`return; // oom`). -/
noncomputable def filter_plane_s16 (s : Priv) (writable : Bool)
    (a : List ℤ) : List ℤ :=
  let vol := s16_vol (effective_level s)
  if vol ≠ 256 then
    if writable then a.map (scale_s16_sample vol) else a
  else a

/-- `filter_plane` on the float branch; `softclip` abstracts
`af_softclip` from `af.c` (not part of this file). -/
noncomputable def filter_plane_float (softclip : ℝ → ℝ) (s : Priv)
    (writable : Bool) (a : List ℝ) : List ℝ :=
  let vol := effective_level s
  if vol ≠ 1 then
    if writable then
      a.map (fun sample =>
        let x := sample * vol
        if s.soft then softclip x else mpclamp x (-1) 1)
    else a
  else a

/-- `filter` on an s16 frame: runs `filter_plane` on every plane, hands
the (possibly unmodified) frame to `af_add_output_frame`, and returns 0.
The returned pair is (forwarded frame, C return value). -/
noncomputable def filter_frame_s16 (s : Priv) (writable : Bool)
    (planes : List (List ℤ)) : List (List ℤ) × ℤ :=
  (planes.map (filter_plane_s16 s writable), 0)

/-- `filter` on a float frame. -/
noncomputable def filter_frame_float (softclip : ℝ → ℝ) (s : Priv)
    (writable : Bool) (planes : List (List ℝ)) : List (List ℝ) × ℤ :=
  (planes.map (filter_plane_float softclip s writable), 0)

/-- A neutral filter state: unity level and replaygain, all options off,
0 dB static gain (matches `af_open`'s `s->level = 1.0` with default
option values). -/
noncomputable def privDefault : Priv :=
  { vol := 1, level := 1, rgain := 1, rgain_track := false,
    rgain_album := false, rgain_preamp := 0, rgain_clip := false,
    replaygain_fallback := 0, soft := false, fast := false,
    detach := false, cfg_volume := 0 }

/-- Neutral state with the detach option on and a non-zero static gain. -/
noncomputable def privDetach : Priv :=
  { privDefault with detach := true, cfg_volume := 42 }

/-- Neutral state with level 2 (overall gain 2). -/
noncomputable def privGain2 : Priv :=
  { privDefault with level := 2 }

/-- Track replaygain enabled, clip flag off. -/
noncomputable def privTrackNoClip : Priv :=
  { privDefault with rgain_track := true }

/-- Track replaygain enabled, clip flag on. -/
noncomputable def privTrackClip : Priv :=
  { privDefault with rgain_track := true, rgain_clip := true }

/-- Album replaygain enabled, clip flag off. -/
noncomputable def privAlbumNoClip : Priv :=
  { privDefault with rgain_album := true }

/-- Replaygain metadata with 0 dB gains and peak 2. -/
noncomputable def rgDataPeak2 : ReplayGainData :=
  { track_gain := 0, track_peak := 2, album_gain := 0, album_peak := 2 }

/-! ### Helper lemmas -/

/-- `MPCLAMP` coincides with `max`/`min` clamping when the bounds are ordered. -/
theorem mpclamp_eq_max_min {a mi ma : ℝ} (h : mi ≤ ma) :
    mpclamp a mi ma = max mi (min ma a) := by
  rw [mpclamp]
  split_ifs with h1 h2
  · rw [min_eq_left (le_of_lt h1), max_eq_right h]
  · rw [min_eq_right (le_of_not_lt h1), max_eq_left (le_of_lt h2)]
  · rw [min_eq_right (le_of_not_lt h1), max_eq_right (le_of_not_lt h2)]

/-- 0 dB converts to unity gain. -/
theorem from_dB_zero : from_dB 0 20 (-200) 60 = 1 := by
  rw [from_dB, mpclamp]
  norm_num

/-- Core's arithmetic right shift on `ℤ` is sign-preserving floor division
by the corresponding power of two. -/
theorem int_shiftRight_eq_fdiv (x : ℤ) (n : ℕ) :
    x >>> n = Int.fdiv x ((2 : ℤ) ^ n) := by
  rw [Int.shiftRight_eq_div_pow, Int.fdiv_eq_ediv _ (by positivity)]
  norm_cast

/-- The result code of `control_reinit`, by unfolding. -/
theorem control_reinit_result_eq (s : Priv) (rg : Option ReplayGainData)
    (inFmt : AFFormat) :
    (control_reinit s rg inFmt).2.2 =
      if s.detach = true ∧ |s.level * reinit_rgain s rg - 1| < 1 / 100000
      then ReinitResult.detach else ReinitResult.ok := rfl

/-- The replaygain stored by `control_reinit`, by unfolding. -/
theorem control_reinit_rgain_eq (s : Priv) (rg : Option ReplayGainData)
    (inFmt : AFFormat) :
    (control_reinit s rg inFmt).1.rgain = reinit_rgain s rg := rfl

/-- The replaygain resolution never reads the static gain option. -/
theorem reinit_rgain_cfg_irrel (s : Priv) (rg : Option ReplayGainData)
    (c : ℝ) :
    reinit_rgain { s with cfg_volume := c } rg = reinit_rgain s rg := by
  rcases rg with _ | d <;> rfl

/-- With 0 dB static gain the effective level is `level * rgain`. -/
theorem effective_level_cfg_zero (s : Priv) (h : s.cfg_volume = 0) :
    effective_level s = s.level * s.rgain := by
  rw [effective_level, h, from_dB_zero, mul_one]

/-- A plane is untouched when the writable copy cannot be obtained
(s16 branch). -/
theorem filter_plane_s16_not_writable (s : Priv) (a : List ℤ) :
    filter_plane_s16 s false a = a := by
  simp [filter_plane_s16]

/-- A plane is untouched when the writable copy cannot be obtained
(float branch). -/
theorem filter_plane_float_not_writable (softclip : ℝ → ℝ) (s : Priv)
    (a : List ℝ) :
    filter_plane_float softclip s false a = a := by
  simp [filter_plane_float]

/-! ### Theorems for the claims -/

/-- C10: setting the volume to `v` and then reading it back returns `v`
itself, while the stored level becomes `v` cubed. -/
theorem volume_set_get_roundtrip (s : Priv) (v : ℝ) :
    control_get_volume (control_set_volume s v) = v ∧
    (control_set_volume s v).level = v ^ 3 :=
  ⟨rfl, rfl⟩

/-- C5: `from_dB` returns 0 for inputs at or below -200 dB, otherwise
10 raised to the clamped input divided by the denominator; in particular
`from_dB 0 20 (-200) 60 = 1`. -/
theorem from_dB_spec (v k mi ma : ℝ) (h : mi ≤ ma) :
    (v ≤ -200 → from_dB v k mi ma = 0)
    ∧ (¬ v ≤ -200 → from_dB v k mi ma = (10 : ℝ) ^ (max mi (min ma v) / k))
    ∧ from_dB 0 20 (-200) 60 = 1 := by
  refine ⟨fun hv => ?_, fun hv => ?_, from_dB_zero⟩
  · rw [from_dB, if_pos hv]
  · rw [from_dB, if_neg hv, mpclamp_eq_max_min h]

/-- Witness for C5 at `v = 0`, `k = 20`, bounds `[-200, 60]`. -/
theorem from_dB_spec_witness : from_dB 0 20 (-200) 60 = 1 :=
  (from_dB_spec 0 20 (-200) 60 (by norm_num)).2.2

/-- C3 counterexample: at gain `1.999` the code's integer gain
(C truncation of `256.0 * level`) is 511, while `round (256 * 1.999)`
is 512. -/
theorem s16_vol_not_round :
    s16_vol (1999 / 1000) = 511
    ∧ round ((256 : ℝ) * (1999 / 1000)) = 512
    ∧ (511 : ℤ) ≠ 512 := by
  refine ⟨?_, ?_, by decide⟩
  · rw [s16_vol, truncZero, if_pos (by norm_num)]
    rw [Int.floor_eq_iff]
    norm_num
  · rw [round_eq, Int.floor_eq_iff]
    norm_num

/-- C3 amended: in the fixed-point path the integer gain is the
truncation toward zero of `256 * gain`, which for non-negative gain is
the floor of `256 * gain` (not the rounding). -/
theorem s16_vol_eq_floor (g : ℝ) (h : 0 ≤ g) :
    s16_vol g = ⌊256 * g⌋ := by
  rw [s16_vol, truncZero, if_pos (by positivity)]

/-- Witness for the amended C3 at gain 2. -/
theorem s16_vol_eq_floor_witness : s16_vol 2 = 512 := by
  rw [s16_vol_eq_floor 2 (by norm_num)]
  rw [Int.floor_eq_iff]
  norm_num

/-- C9: the negotiated format is 16-bit fixed point exactly when fast
mode is on and the de-planarized input is not float, and is float in
every other case; the planar flag of the input is always preserved. -/
theorem format_negotiation (s : Priv) (inFmt : AFFormat) :
    ((reinit_format s inFmt).base = .s16 ↔
      (s.fast = true ∧ af_fmt_from_planar inFmt ≠ AF_FORMAT_FLOAT))
    ∧ ((reinit_format s inFmt).base = .s16 ∨
        (reinit_format s inFmt).base = .flt)
    ∧ (reinit_format s inFmt).planar = inFmt.planar := by
  rcases inFmt with ⟨b, p⟩
  cases hf : s.fast <;> cases b <;> cases p <;>
    simp [reinit_format, af_fmt_from_planar, af_fmt_to_planar,
      af_fmt_is_planar, AF_FORMAT_S16, AF_FORMAT_FLOAT, hf]

/-- C1: the reinit detach decision is independent of the static gain
option `cfg_volume`, it is taken exactly when `detach` is set and
`|level * rgain - 1| < 1e-5` for the freshly resolved replaygain, and
with unity level and resolved replaygain and the detach option on the
result is `AF_DETACH` whatever the static gain. -/
theorem detach_decision (s : Priv) (rg : Option ReplayGainData)
    (inFmt : AFFormat) (c : ℝ) :
    ((control_reinit { s with cfg_volume := c } rg inFmt).2.2
      = (control_reinit s rg inFmt).2.2)
    ∧ ((control_reinit s rg inFmt).2.2 = ReinitResult.detach ↔
        (s.detach = true ∧
          |s.level * (control_reinit s rg inFmt).1.rgain - 1| < 1 / 100000))
    ∧ (s.level = 1 → (control_reinit s rg inFmt).1.rgain = 1 →
        s.detach = true →
        (control_reinit s rg inFmt).2.2 = ReinitResult.detach) := by
  have h1 := control_reinit_result_eq s rg inFmt
  have h0 := control_reinit_result_eq { s with cfg_volume := c } rg inFmt
  have hr := reinit_rgain_cfg_irrel s rg c
  have hg := control_reinit_rgain_eq s rg inFmt
  refine ⟨?_, ?_, ?_⟩
  · rw [h0, h1, hr]
  · rw [h1, hg]
    split_ifs with h
    · exact iff_of_true rfl h
    · exact iff_of_false (by simp) h
  · intro ha hb hc
    have hb' : reinit_rgain s rg = 1 := hg ▸ hb
    rw [h1, if_pos ⟨hc, by rw [ha, hb']; norm_num⟩]

/-- Witness for C1: neutral state with detach on and a 42 dB static
gain detaches. -/
theorem detach_decision_witness :
    (control_reinit privDetach none AF_FORMAT_S16).2.2
      = ReinitResult.detach := by
  refine (detach_decision privDetach none AF_FORMAT_S16 0).2.2 rfl ?_ rfl
  show reinit_rgain privDetach none = 1
  simp [reinit_rgain, privDetach, privDefault]

/-- C2 counterexample: with gain 2 and a failed writable copy, the frame
operation leaves the plane untouched but still returns 0 — the same
success value as the run with a working allocation — so the failure does
not propagate to the caller. -/
theorem oom_not_propagated :
    filter_frame_s16 privGain2 false [[10000]] = ([[10000]], 0)
    ∧ filter_frame_s16 privGain2 true [[10000]] = ([[20000]], 0)
    ∧ ¬ (filter_frame_s16 privGain2 false [[10000]]).2 < 0 := by
  have he : effective_level privGain2 = 2 := by
    rw [effective_level_cfg_zero _ rfl]
    norm_num [privGain2, privDefault]
  have hv : s16_vol (effective_level privGain2) = 512 := by
    rw [he, s16_vol, truncZero, if_pos (by norm_num)]
    rw [Int.floor_eq_iff]
    norm_num
  refine ⟨?_, ?_, ?_⟩
  · simp [filter_frame_s16, filter_plane_s16_not_writable]
  · simp only [filter_frame_s16, filter_plane_s16, hv, List.map]
    norm_num
    decide
  · simp [filter_frame_s16]

/-- C2 amended: when the writable copy fails, every plane is left
completely unmodified, and the frame-processing call still returns 0
(success) and forwards the frame — the failure is swallowed, not
propagated. -/
theorem oom_silent_noop (softclip : ℝ → ℝ) (s : Priv)
    (pz : List (List ℤ)) (pr : List (List ℝ)) :
    filter_frame_s16 s false pz = (pz, 0)
    ∧ filter_frame_float softclip s false pr = (pr, 0) := by
  constructor
  · have h : filter_plane_s16 s false = id :=
      funext (filter_plane_s16_not_writable s)
    rw [filter_frame_s16, h, List.map_id]
  · have h : filter_plane_float softclip s false = id :=
      funext (filter_plane_float_not_writable softclip s)
    rw [filter_frame_float, h, List.map_id]

/-- C4: one fixed-point sample is the arithmetic (sign-preserving) shift
of `sample * intGain` by 8 bits — floor division by 256 — hard-clamped to
the 16-bit signed range; at gain 2 (`intGain = 512`) sample 10000 maps to
20000 and sample 30000 clamps to 32767. -/
theorem s16_scaling (s : Priv) (vol x : ℤ)
    (h1 : s.level = 2) (h2 : s.rgain = 1) (h3 : s.cfg_volume = 0) :
    scale_s16_sample vol x
      = mpclampZ (Int.fdiv (x * vol) 256) (-32768) 32767
    ∧ s16_vol (effective_level s) = 512
    ∧ filter_plane_s16 s true [10000, 30000] = [20000, 32767] := by
  have he : effective_level s = 2 := by
    rw [effective_level, h1, h2, h3, from_dB_zero]
    norm_num
  have hv : s16_vol (effective_level s) = 512 := by
    rw [he, s16_vol, truncZero, if_pos (by norm_num)]
    rw [Int.floor_eq_iff]
    norm_num
  refine ⟨?_, hv, ?_⟩
  · rw [scale_s16_sample, int_shiftRight_eq_fdiv]
    norm_num
  · simp only [filter_plane_s16, hv, List.map]
    norm_num
    decide

/-- Witness for C4 at the gain-2 state, `intGain = 512`, sample 10000. -/
theorem s16_scaling_witness :
    filter_plane_s16 privGain2 true [10000, 30000] = [20000, 32767] :=
  (s16_scaling privGain2 512 10000 rfl rfl rfl).2.2

/-- C8: with unity level, unity replaygain and 0 dB static gain the
effective gain is exactly 1, the fixed-point gain is exactly 256, and
processing a plane is a no-op in both representations. -/
theorem unity_gain_noop (softclip : ℝ → ℝ) (s : Priv) (w : Bool)
    (aZ : List ℤ) (aR : List ℝ)
    (h1 : s.level = 1) (h2 : s.rgain = 1) (h3 : s.cfg_volume = 0) :
    effective_level s = 1
    ∧ s16_vol (effective_level s) = 256
    ∧ filter_plane_s16 s w aZ = aZ
    ∧ filter_plane_float softclip s w aR = aR := by
  have he : effective_level s = 1 := by
    rw [effective_level, h1, h2, h3, from_dB_zero]
    norm_num
  have hv : s16_vol (effective_level s) = 256 := by
    rw [he, s16_vol, truncZero, if_pos (by norm_num)]
    rw [Int.floor_eq_iff]
    norm_num
  refine ⟨he, hv, ?_, ?_⟩
  · simp [filter_plane_s16, hv]
  · simp [filter_plane_float, he]

/-- Witness for C8 at the neutral state on concrete planes. -/
theorem unity_gain_noop_witness :
    filter_plane_s16 privDefault true [7, -7] = [7, -7]
    ∧ filter_plane_float id privDefault true [1 / 2] = [1 / 2] :=
  ⟨(unity_gain_noop id privDefault true [7, -7] [1 / 2] rfl rfl rfl).2.2.1,
   (unity_gain_noop id privDefault true [7, -7] [1 / 2] rfl rfl rfl).2.2.2⟩

/-- C6: with track mode on (album flag arbitrary: track is preferred),
metadata present, the resolver uses the track pair, adds the preamp,
converts from dB, and — when the clip flag is clear, i.e. clipping
prevention is active — limits by `1/peak`; hence for `peak > 1` the
resulting replaygain is at most `1/peak`. -/
theorem replaygain_resolution (s : Priv) (d : ReplayGainData)
    (inFmt : AFFormat) (htrack : s.rgain_track = true) :
    ((control_reinit s (some d) inFmt).1.rgain =
      if s.rgain_clip = true
      then from_dB (d.track_gain + s.rgain_preamp) 20 (-200) 60
      else min (from_dB (d.track_gain + s.rgain_preamp) 20 (-200) 60)
             (1 / d.track_peak))
    ∧ (s.rgain_clip = false → 1 < d.track_peak →
        (control_reinit s (some d) inFmt).1.rgain ≤ 1 / d.track_peak) := by
  have hg := control_reinit_rgain_eq s (some d) inFmt
  constructor
  · rw [hg]
    cases hclip : s.rgain_clip <;> simp [reinit_rgain, htrack, hclip]
  · intro hclip hpeak
    rw [hg]
    simp [reinit_rgain, htrack, hclip]

/-- Witness for C6: 0 dB track gain, peak 2, clip flag clear gives a
replaygain of at most 1/2. -/
theorem replaygain_resolution_witness :
    (control_reinit privTrackNoClip (some rgDataPeak2)
      AF_FORMAT_FLOAT).1.rgain ≤ 1 / 2 := by
  have h := (replaygain_resolution privTrackNoClip rgDataPeak2
    AF_FORMAT_FLOAT rfl).2 rfl (by norm_num [rgDataPeak2])
  simpa [rgDataPeak2] using h

/-- C7 counterexample: with the replaygain-clip flag set, 0 dB track
gain and peak 2, the resolved replaygain is 1, not the
`min(replayGain, 1/peak) = 1/2` the claim predicts — so the limiting
step is not applied when the flag is set. -/
theorem clip_flag_counterexample :
    (control_reinit privTrackClip (some rgDataPeak2)
      AF_FORMAT_FLOAT).1.rgain = 1
    ∧ min (from_dB (rgDataPeak2.track_gain + privTrackClip.rgain_preamp)
        20 (-200) 60) (1 / rgDataPeak2.track_peak) = 1 / 2
    ∧ (1 : ℝ) ≠ 1 / 2 := by
  have h0 : rgDataPeak2.track_gain + privTrackClip.rgain_preamp = 0 := by
    norm_num [rgDataPeak2, privTrackClip, privDefault]
  refine ⟨?_, ?_, by norm_num⟩
  · show reinit_rgain privTrackClip (some rgDataPeak2) = 1
    simp [reinit_rgain, privTrackClip, privDefault, rgDataPeak2,
      from_dB_zero]
  · rw [h0, from_dB_zero]
    norm_num [rgDataPeak2]

/-- C7 amended: the `min(replayGain, 1/peak)` limiting step is applied
exactly when the replaygain-clip flag is clear — the option disables
clipping prevention (shown here on the album branch). -/
theorem clip_flag_disables_prevention (s : Priv) (d : ReplayGainData)
    (inFmt : AFFormat) (h1 : s.rgain_track = false)
    (h2 : s.rgain_album = true) :
    (control_reinit s (some d) inFmt).1.rgain =
      if s.rgain_clip = true
      then from_dB (d.album_gain + s.rgain_preamp) 20 (-200) 60
      else min (from_dB (d.album_gain + s.rgain_preamp) 20 (-200) 60)
             (1 / d.album_peak) := by
  have hg := control_reinit_rgain_eq s (some d) inFmt
  rw [hg]
  cases hclip : s.rgain_clip <;> simp [reinit_rgain, h1, h2, hclip]

/-- Witness for the amended C7: album mode, clip flag clear, 0 dB album
gain and peak 2 resolve to replaygain 1/2. -/
theorem clip_flag_disables_prevention_witness :
    (control_reinit privAlbumNoClip (some rgDataPeak2)
      AF_FORMAT_FLOAT).1.rgain = 1 / 2 := by
  rw [clip_flag_disables_prevention privAlbumNoClip rgDataPeak2
    AF_FORMAT_FLOAT rfl rfl]
  have h0 : rgDataPeak2.album_gain + privAlbumNoClip.rgain_preamp = 0 := by
    norm_num [rgDataPeak2, privAlbumNoClip, privDefault]
  rw [h0, from_dB_zero]
  norm_num [privAlbumNoClip, privDefault, rgDataPeak2]

end AfVolume
